import Mathlib

/-
Verification development for the typed entity/relation mapping layer in
src/src/query.rs: the enumerated scalar codecs (KeyAlgo, EntityStatus),
their storage marshaling (to_sql / from_sql over an abstract underlying
text codec), the request context (MyContext), the query modifier hook,
and the closed set of entity types exposed by the query root.
-/

/-- Result of a Rust function that can also panic: models
diesel deserialize Result plus the possibility of hitting a
diverging branch such as the unreachable macro. -/
inductive Outcome (ε α : Type) where
  | ok : α → Outcome ε α
  | err : ε → Outcome ε α
  | panicked : String → Outcome ε α
deriving DecidableEq, Repr

/-- KeyAlgo enum from src/src/query.rs lines 57-60. -/
inductive KeyAlgo where
  | FOO
  | BAR
deriving DecidableEq, Repr

/-- KeyAlgo.from_str, lines 63-69: sequential exact string match. -/
def KeyAlgo.from_str (text : String) : Option KeyAlgo :=
  if text = "FOO" then some KeyAlgo.FOO
  else if text = "BAR" then some KeyAlgo.BAR
  else none

/-- KeyAlgo.to_str, lines 71-76. -/
def KeyAlgo.to_str : KeyAlgo → String
  | KeyAlgo.FOO => "FOO"
  | KeyAlgo.BAR => "BAR"

/-- ToSql for KeyAlgo, lines 79-87: render the variant, then hand the
string to the underlying String codec, abstracted as stringToSql. -/
def KeyAlgo.to_sql {ε ω : Type} (stringToSql : String → Except ε ω)
    (v : KeyAlgo) : Except ε ω :=
  stringToSql (KeyAlgo.to_str v)

/-- FromSql for KeyAlgo, lines 89-101: propagate the underlying String
decode error (the question-mark operator), parse the text, and on a
non-parsing value hit the unreachable branch (a panic). -/
def KeyAlgo.from_sql {ε : Type} (stringFromSql : Except ε String) :
    Outcome ε KeyAlgo :=
  match stringFromSql with
  | Except.error e => Outcome.err e
  | Except.ok value =>
    match KeyAlgo.from_str value with
    | some algo => Outcome.ok algo
    | none => Outcome.panicked "internal error: entered unreachable code"

/-- EntityStatus enum from src/src/query.rs lines 107-111. -/
inductive EntityStatus where
  | OLD
  | CURRENT
  | DRAFT
deriving DecidableEq, Repr

/-- EntityStatus.from_str, lines 114-121. -/
def EntityStatus.from_str (text : String) : Option EntityStatus :=
  if text = "OLD" then some EntityStatus.OLD
  else if text = "CURRENT" then some EntityStatus.CURRENT
  else if text = "DRAFT" then some EntityStatus.DRAFT
  else none

/-- EntityStatus.to_str, lines 123-129. -/
def EntityStatus.to_str : EntityStatus → String
  | EntityStatus.OLD => "OLD"
  | EntityStatus.CURRENT => "CURRENT"
  | EntityStatus.DRAFT => "DRAFT"

/-- ToSql for EntityStatus, lines 132-140. -/
def EntityStatus.to_sql {ε ω : Type} (stringToSql : String → Except ε ω)
    (v : EntityStatus) : Except ε ω :=
  stringToSql (EntityStatus.to_str v)

/-- FromSql for EntityStatus, lines 142-154. -/
def EntityStatus.from_sql {ε : Type} (stringFromSql : Except ε String) :
    Outcome ε EntityStatus :=
  match stringFromSql with
  | Except.error e => Outcome.err e
  | Except.ok value =>
    match EntityStatus.from_str value with
    | some status => Outcome.ok status
    | none => Outcome.panicked "internal error: entered unreachable code"

/-- The closed set of entity types of the schema. -/
inductive EntityName where
  | Entity
  | Key
  | Device
  | Signature
  | Certifier
deriving DecidableEq, Repr

/-- The entity types listed in the query_object macro invocation,
lines 249-258: these are the types addressable from the query root. -/
def queryEntities : List EntityName :=
  [EntityName.Entity, EntityName.Key, EntityName.Device,
   EntityName.Signature, EntityName.Certifier]

/-- MyContext, lines 260-266: holds one pooled connection, abstracted
over the connection type. -/
structure MyContext (κ : Type) where
  conn : κ

/-- MyContext.new, lines 272-274. -/
def MyContext.new {κ : Type} (conn : κ) : MyContext κ :=
  ⟨conn⟩

/-- WundergraphContext.get_connection for MyContext, lines 300-302:
a field projection of the stored connection. -/
def MyContext.get_connection {κ : Type} (ctx : MyContext κ) : κ :=
  ctx.conn

/-- QueryModifier.modify_query for MyContext, lines 285-294: matches on
the entity type name and returns the query unchanged on every arm.
The selection type S and query type Q stand for the opaque
LookAheadSelection and BoxedQuery; E stands for the wundergraph error. -/
def MyContext.modify_query {κ Q E S : Type} (_ctx : MyContext κ)
    (typeName : String) (_select : S) (query : Q) : Except E Q :=
  match typeName with
  | _ => Except.ok query

/-- Exact-match characterisation of KeyAlgo.from_str: it returns a given
variant precisely on that variant rendered canonical name. -/
theorem keyAlgo_from_str_some_iff (s : String) (v : KeyAlgo) :
    KeyAlgo.from_str s = some v ↔ s = KeyAlgo.to_str v := by
  cases v <;> simp only [KeyAlgo.from_str, KeyAlgo.to_str] <;>
    split_ifs <;> simp_all

/-- Exact-match characterisation of EntityStatus.from_str. -/
theorem entityStatus_from_str_some_iff (s : String) (v : EntityStatus) :
    EntityStatus.from_str s = some v ↔ s = EntityStatus.to_str v := by
  cases v <;> simp only [EntityStatus.from_str, EntityStatus.to_str] <;>
    split_ifs <;> simp_all

/-- Claim C1: for every variant v of KeyAlgo and EntityStatus, parsing
the rendered canonical name returns exactly that variant:
from_str (to_str v) = some v. -/
theorem enum_codec_roundtrip :
    (∀ v : KeyAlgo, KeyAlgo.from_str (KeyAlgo.to_str v) = some v) ∧
    (∀ v : EntityStatus,
      EntityStatus.from_str (EntityStatus.to_str v) = some v) := by
  constructor <;> intro v <;> cases v <;> decide

/-- Claim C2 (divergence witness): when the underlying String decode
yields text outside the closed variant set, from_sql for KeyAlgo and
EntityStatus hits the unreachable branch and panics instead of
returning a typed recoverable decode error. -/
theorem from_sql_panics_on_invalid_text :
    @KeyAlgo.from_sql Unit (Except.ok "baz") =
      Outcome.panicked "internal error: entered unreachable code" ∧
    @EntityStatus.from_sql Unit (Except.ok "baz") =
      Outcome.panicked "internal error: entered unreachable code" := by
  constructor <;> decide

/-- Claim C3: from_str returns some v exactly when the input is the
canonical name of v, for both enums; every other string, in particular
the lowercase string foo, parses to none. -/
theorem from_str_exact_case_sensitive :
    (∀ s : String, ∀ v : KeyAlgo,
      KeyAlgo.from_str s = some v ↔ s = KeyAlgo.to_str v) ∧
    (∀ s : String, ∀ v : EntityStatus,
      EntityStatus.from_str s = some v ↔ s = EntityStatus.to_str v) ∧
    KeyAlgo.from_str "foo" = none ∧
    EntityStatus.from_str "foo" = none ∧
    KeyAlgo.from_str " FOO" = none ∧
    EntityStatus.from_str "OLD " = none := by
  refine ⟨keyAlgo_from_str_some_iff, entityStatus_from_str_some_iff,
    ?_, ?_, ?_, ?_⟩ <;> decide

/-- Claim C4: the reference query modifier hook is allow-by-default:
for every entity type name, every selection and every base query, it
returns ok with the query unchanged. -/
theorem modify_query_allows_all {κ Q E S : Type} (ctx : MyContext κ)
    (typeName : String) (select : S) (query : Q) :
    @MyContext.modify_query κ Q E S ctx typeName select query =
      Except.ok query :=
  rfl

/-- Claim C5: to_sql renders the canonical variant name and hands
exactly that string to the underlying text codec, so its result (in
particular its success) is exactly that of the underlying String
serialization on the rendered name. -/
theorem to_sql_hands_rendered_name {ε ω : Type}
    (stringToSql : String → Except ε ω) :
    (∀ v : KeyAlgo,
      KeyAlgo.to_sql stringToSql v = stringToSql (KeyAlgo.to_str v)) ∧
    (∀ v : EntityStatus,
      EntityStatus.to_sql stringToSql v =
        stringToSql (EntityStatus.to_str v)) :=
  ⟨fun _ => rfl, fun _ => rfl⟩

/-- Claim C6: for every context built by MyContext.new from an acquired
connection, get_connection returns that same connection, by pure field
projection. -/
theorem get_connection_is_constructed_conn {κ : Type} (c : κ) :
    MyContext.get_connection (MyContext.new c) = c :=
  rfl

/-- Claim C7: the query root exposes exactly the closed set of five
entity types: every entity name is addressable, there are no
duplicates, and the list has exactly five elements. -/
theorem query_root_exposes_closed_set :
    (∀ e : EntityName, e ∈ queryEntities) ∧
    queryEntities.Nodup ∧ queryEntities.length = 5 := by
  refine ⟨fun e => ?_, by decide, rfl⟩
  cases e <;> decide

/-- Claim C8: reverse round-trip: whenever from_str succeeds with some
variant, rendering that variant gives back exactly the input string, so
render is a left inverse of parse on its success set. -/
theorem to_str_left_inverse_of_from_str (s : String) :
    (∀ v : KeyAlgo, KeyAlgo.from_str s = some v → KeyAlgo.to_str v = s) ∧
    (∀ v : EntityStatus,
      EntityStatus.from_str s = some v → EntityStatus.to_str v = s) := by
  constructor <;> intro v h
  · exact ((keyAlgo_from_str_some_iff s v).mp h).symm
  · exact ((entityStatus_from_str_some_iff s v).mp h).symm

/-- Witness for C8 at the concrete input FOO. -/
theorem to_str_left_inverse_of_from_str_witness :
    KeyAlgo.to_str KeyAlgo.FOO = "FOO" :=
  (to_str_left_inverse_of_from_str "FOO").1 KeyAlgo.FOO (by decide)

/-- Claim C9: noninterference of the hook: the result of modify_query
does not depend on the field selection nor on the context (hence not on
its connection state), only on the type name and the base query. -/
theorem modify_query_noninterference {κ Q E S T : Type}
    (ctx1 ctx2 : MyContext κ) (typeName : String) (sel1 : S) (sel2 : T)
    (query : Q) :
    @MyContext.modify_query κ Q E S ctx1 typeName sel1 query =
      @MyContext.modify_query κ Q E T ctx2 typeName sel2 query :=
  rfl

/-- Claim C10: error pass-through on read: from_sql returns ok v
whenever the underlying String decode yields a canonical variant name
with matching variant v, and when the underlying decode fails, from_sql
returns that underlying error unchanged. -/
theorem from_sql_pass_through {ε : Type} :
    (∀ e : ε, @KeyAlgo.from_sql ε (Except.error e) = Outcome.err e) ∧
    (∀ e : ε, @EntityStatus.from_sql ε (Except.error e) = Outcome.err e) ∧
    (∀ s : String, ∀ v : KeyAlgo, KeyAlgo.from_str s = some v →
      @KeyAlgo.from_sql ε (Except.ok s) = Outcome.ok v) ∧
    (∀ s : String, ∀ v : EntityStatus, EntityStatus.from_str s = some v →
      @EntityStatus.from_sql ε (Except.ok s) = Outcome.ok v) := by
  refine ⟨fun e => rfl, fun e => rfl, fun s v h => ?_, fun s v h => ?_⟩
  · simp only [KeyAlgo.from_sql, h]
  · simp only [EntityStatus.from_sql, h]

/-- Witness for C10 at the concrete canonical input FOO. -/
theorem from_sql_pass_through_witness :
    @KeyAlgo.from_sql Unit (Except.ok "FOO") = Outcome.ok KeyAlgo.FOO :=
  (@from_sql_pass_through Unit).2.2.1 "FOO" KeyAlgo.FOO (by decide)
